import Mathlib

/-!
Verification of the SwarmAgents job-dispatch loop (worker/worker.py) and the
quota-aware client wrappers (agents/youtube_researcher.py,
agents/twitter_researcher.py), as a shallow embedding in Lean 4.

Modelling conventions:
- Machine floats for timestamps and retry delays are modelled as rationals.
- External effects (HTTP calls, local researcher calls, redis operations that
  may raise) are modelled as explicit outcome oracles passed in.
- Python exceptions that escape a function are modelled with Except; functions
  that can never raise return a plain value.
- The two time.time() calls inside one run_once iteration are modelled as the
  same instant now, so the scheduled score is exact rather than within a
  real-time epsilon.
-/

/-- Python truthiness-based fallback on strings: a or b, where the empty
string is falsy (used for payload.get chains in worker.py). -/
def pyOrStr (a : Option String) (b : String) : String :=
  match a with
  | some s => if s = "" then b else s
  | none => b

/-- Python a or b on two optional strings, empty string falsy. -/
def pyOrOpt (a b : Option String) : Option String :=
  match a with
  | some s => if s = "" then b else some s
  | none => b

/-- Python str(x) for an optional string, where str(None) is the literal
string None (as in f-strings such as f"job:{job.get('id')}" in worker.py). -/
def pyShowId : Option String → String
  | none => "None"
  | some s => s

/-- Python int() truncation toward zero on a rational value. -/
def ratTrunc (q : ℚ) : Int :=
  if 0 ≤ q then q.floor else q.ceil

/-- Truthiness of an optional string field of a dict: absent or empty is
falsy (result.get("error") check in worker.py run_once). -/
def pyTruthy (o : Option String) : Bool :=
  match o with
  | none => false
  | some s => s != ""

/-- Rendering of an optional rational for exception messages; the exact
decimal rendering of Python floats is abstracted by toString. -/
def showOptQ : Option ℚ → String
  | none => "None"
  | some q => toString q

/-- Set a key in an association list, replacing any previous binding
(models redis SET on the status keyspace and file overwrite in runs/jobs). -/
def assocSet {β : Type} (l : List (String × β)) (k : String) (v : β) :
    List (String × β) :=
  (k, v) :: l.filter (fun p => !(p.1 == k))

/-- Look up a key in an association list. -/
def assocGet {β : Type} (l : List (String × β)) (k : String) : Option β :=
  (l.find? (fun p => p.1 == k)).map Prod.snd

/-! ### Retry-After classification (C4)

agents/youtube_researcher.py lines 241-266 and agents/twitter_researcher.py
lines 101-122. A present header value is described by which of the three
parses succeed on it: float(ra), int(ra), and
email.utils.parsedate_to_datetime(ra).timestamp(). -/

/-- Parse outcomes of one Retry-After header value: float(ra), int(ra) and
the HTTP-date parse (as an absolute epoch timestamp). A field is none when
that parse raises. -/
structure HeaderParse where
  asFloat : Option ℚ
  asInt : Option Int
  asDate : Option ℚ
deriving DecidableEq, Repr

/-- YouTubeResearcher._call_api 429 handling (youtube_researcher.py:241-266):
try float(ra); on failure try the HTTP-date parse as seconds from now; the
resolved block window is that value when positive, else max(backoff, 60).
The function returns the block_seconds that is both persisted (as
now + block_seconds) and raised in QuotaExceeded(retry_after=block_seconds). -/
def yt_resolve_429 (h : Option HeaderParse) (now backoff : ℚ) : ℚ :=
  let retry_after : Option ℚ :=
    match h with
    | none => none
    | some p =>
      match p.asFloat with
      | some v => some v
      | none =>
        match p.asDate with
        | some ts => some (ts - now)
        | none => none
  match retry_after with
  | some v => if 0 < v then v else max backoff 60
  | none => max backoff 60

/-- TwitterResearcher._call_api 429 handling (twitter_researcher.py:101-122):
try int(ra); on failure try the HTTP-date parse truncated to int seconds; the
value raised in RateLimitExceeded is the parsed value itself whenever a parse
succeeded (with no positivity check), and 60 only when retry_after is None. -/
def tw_resolve_429 (h : Option HeaderParse) (now : ℚ) : Int :=
  let retry_after : Option Int :=
    match h with
    | none => none
    | some p =>
      match p.asInt with
      | some v => some v
      | none =>
        match p.asDate with
        | some ts => some (ratTrunc (ts - now))
        | none => none
  match retry_after with
  | some v => v
  | none => 60

/-! ### Block-state readers (C5)

agents/youtube_researcher.py _load_state (lines 65-109) and
agents/twitter_researcher.py TwitterResearcher._load_state (lines 36-41).
All lock-strategy variants of the YouTube reader reduce to: open the file and
json.load it; the outcome of that read is the oracle below. -/

/-- The state dict persisted in the block-state file (string keys to numeric
values, such as blocked_until). -/
abbrev StateDict := List (String × ℚ)

/-- Outcome of attempting to open and JSON-parse the persisted state file. -/
inductive ReadOutcome where
  /-- The file does not exist (os.path.exists false / FileNotFoundError). -/
  | missing : ReadOutcome
  /-- The file was opened; parsed is some dict on JSON success and none when
  json.load raises. -/
  | content (parsed : Option StateDict) : ReadOutcome
  /-- Opening or reading raised some other OSError (permissions, etc.). -/
  | ioFail (msg : String) : ReadOutcome
deriving DecidableEq, Repr

/-- Python exceptions that a state reader can let escape. -/
inductive PyReadError where
  | jsonDecodeError : PyReadError
  | osError (msg : String) : PyReadError
deriving DecidableEq, Repr

/-- youtube_researcher._load_state: the entire body is wrapped in
try/except Exception returning the empty dict, so every failure outcome maps
to the empty dict and nothing escapes (the return type is a plain value). -/
def yt_load_state (o : ReadOutcome) : StateDict :=
  match o with
  | .missing => []
  | .content (some d) => d
  | .content none => []
  | .ioFail _ => []

/-- TwitterResearcher._load_state: only FileNotFoundError is caught (returning
the empty dict); a JSON parse failure or any other I/O error escapes. -/
def tw_load_state (o : ReadOutcome) : Except PyReadError StateDict :=
  match o with
  | .missing => .ok []
  | .content (some d) => .ok d
  | .content none => .error .jsonDecodeError
  | .ioFail m => .error (.osError m)

/-! ### Data model of jobs and results (agents/types.py, worker/worker.py) -/

/-- One response record (VideoRecord or TweetRecord, types.py); only the
fields the dispatch loop itself inspects (videoId, url, for the URL backfill
in run_once) are explicit, the rest is an opaque body. -/
structure Rec where
  videoId : Option String := none
  url : Option String := none
  body : String := ""
deriving DecidableEq, Repr

/-- A job response: a record list from a researcher backend, or the plain
text returned by the model runner. -/
inductive Resp where
  | records (rs : List Rec) : Resp
  | text (s : String) : Resp
deriving DecidableEq, Repr

/-- JobResult (types.py): all fields optional in the TypedDict; absent fields
are none / false here. -/
structure JobResult where
  id : Option String := none
  response : Option Resp := none
  errMsg : Option String := none
  finished_at : Option String := none
  deferred : Bool := false
  retry_after : Option ℚ := none
  scheduled_at : Option ℚ := none
deriving DecidableEq, Repr

/-- JobPayload fields read by process_job (worker.py). Dynamic-typing
normalizations of the source (str() coercions, int() parsing of
max_results/depth with their defaults) are collapsed into typed optional
fields holding the successfully parsed value. -/
structure Payload where
  prompt : Option String := none
  prompt_id : Option String := none
  pid : Option String := none
  agent : Option String := none
  tags : List String := []
  topic_or_person : Option String := none
  query : Option String := none
  max_results : Option Int := none
  depth_of_search : Option Int := none
  depth : Option Int := none
deriving DecidableEq, Repr

/-- A deserialized job: {id, payload} (worker.py json.loads of the queue
entry). -/
structure Job where
  id : Option String := none
  payload : Payload := {}
deriving DecidableEq, Repr

/-! ### External-call outcome oracles -/

/-- Outcome of the single HTTP POST to a remote MCP endpoint made by one
process_job execution (worker.py requests.post to TWITTER_MCP_URL or
YOUTUBE_MCP_URL): either a response with a status code, an optional
Retry-After header and an optional parsed response-record list (none when the
body is not JSON with a response list), or a raised exception (network
failure, body decode failure) which the source handles in the same
except-branch. -/
inductive McpOutcome where
  | http (status : Nat) (retryAfter : Option HeaderParse)
      (respRecords : Option (List Rec)) (text : String) : McpOutcome
  | exc (msg : String) : McpOutcome

/-- Outcome of one local YouTubeResearcher().search call. -/
inductive YtSearchOutcome where
  | ok (rs : List Rec) : YtSearchOutcome
  | quota (retryAfter : Option ℚ) : YtSearchOutcome
  | failed (msg : String) : YtSearchOutcome

/-- Outcome of one local TwitterResearcher().search call (the constructor
runs _load_state, whose escaping exceptions also land in the failed case). -/
inductive TwSearchOutcome where
  | ok (rs : List Rec) : TwSearchOutcome
  | rateLimited (retryAfter : Int) : TwSearchOutcome
  | failed (msg : String) : TwSearchOutcome

/-- Body of a 2xx model-runner response (worker.py call_model_runner):
data.get("response"), data.get("result") and str(data). -/
structure RunnerData where
  response : Option String := none
  result : Option String := none
  asStr : String := ""

/-- Outcome of the requests.post to the model runner: a decoded 2xx body, or
any raised exception (connection error, raise_for_status, JSON decode). -/
inductive RunnerOutcome where
  | ok (d : RunnerData) : RunnerOutcome
  | fail (msg : String) : RunnerOutcome

/-- Environment of one process_job execution: the MCP configuration read
from the environment and the outcome oracles for each external call it can
make, plus the ISO timestamp that datetime.now(timezone.utc) renders to. -/
structure Env where
  twitter_mcp_url : Option String := none
  youtube_mcp_url : Option String := none
  twitterMcp : McpOutcome := .exc "unreachable"
  youtubeMcp : McpOutcome := .exc "unreachable"
  twitterLocal : String → TwSearchOutcome := fun _ => .ok []
  youtubeLocal : String → YtSearchOutcome := fun _ => .ok []
  runner : RunnerOutcome := .fail "unreachable"
  now_iso : String := ""
  snapshot_ts : String := ""

/-! ### process_job (worker/worker.py lines 34-284) -/

/-- An exception escaping process_job: the two deferral signals
(QuotaExceeded from the YouTube path, RateLimitExceeded from the Twitter
path), or the UnboundLocalError raised at the final return when the
mis-indented YouTube success path left result unassigned. -/
inductive ProcSig where
  | quotaExceeded (retry_after : Option ℚ) : ProcSig
  | rateLimitExceeded (retry_after : Int) : ProcSig
  | unboundLocalError : ProcSig
deriving DecidableEq, Repr

/-- An exception inside the big try-block of process_job: a deferral signal
(re-raised by the except (QuotaExceeded, RateLimitExceeded) arm), or any
other exception (converted to an error JobResult by the except Exception
arm). -/
inductive ExecExc where
  | sig (s : ProcSig) : ExecExc
  | otherExc (msg : String) : ExecExc

/-- str(e) of the exception instances raised by the backends, used for the
error JobResult and the deferral-fallback status (QuotaExceeded message from
youtube_researcher.py:58, RateLimitExceeded message from
twitter_researcher.py:21; float rendering abstracted). -/
def sigMessage : ProcSig → String
  | .quotaExceeded ra => "Quota exceeded; retry after " ++ showOptQ ra
  | .rateLimitExceeded n => "rate limited; retry after " ++ toString n ++ "s"
  | .unboundLocalError => "local variable referenced before assignment"

/-- Lift a local Twitter search outcome into the try-block exception
discipline. -/
def tw_search_exec (o : TwSearchOutcome) : Except ExecExc (List Rec) :=
  match o with
  | .ok rs => .ok rs
  | .rateLimited n => .error (.sig (.rateLimitExceeded n))
  | .failed m => .error (.otherExc m)

/-- Lift a local YouTube search outcome into the try-block exception
discipline. -/
def yt_search_exec (o : YtSearchOutcome) : Except ExecExc (List Rec) :=
  match o with
  | .ok rs => .ok rs
  | .quota ra => .error (.sig (.quotaExceeded ra))
  | .failed m => .error (.otherExc m)

/-- The Twitter branch of process_job (worker.py lines 88-135): with an MCP
endpoint configured, a 200 yields the response records (or [] when absent),
a 429 raises RateLimitExceeded from the float-parsed Retry-After header
(truncated to int, 60 when absent or unparsable), and every other response
or raised exception falls back to the local researcher. -/
def twitter_branch (env : Env) (topic : String) : Except ExecExc (List Rec) :=
  match env.twitter_mcp_url with
  | some _ =>
    match env.twitterMcp with
    | .http 200 _ rs _ => .ok (rs.getD [])
    | .http 429 ra _ _ =>
      .error (.sig (.rateLimitExceeded
        (match ra.bind HeaderParse.asFloat with
         | some v => ratTrunc v
         | none => 60)))
    | .http _ _ _ _ => tw_search_exec (env.twitterLocal topic)
    | .exc _ => tw_search_exec (env.twitterLocal topic)
  | none => tw_search_exec (env.twitterLocal topic)

/-- The record-fetch part of the YouTube branch of process_job (worker.py
lines 137-242): with an MCP endpoint configured, a 200 yields the response
records, a 429 raises QuotaExceeded from the float-parsed Retry-After
header, other responses and raised exceptions fall back to the local
researcher (the TypeError-retry on the search signature collapses into the
single local outcome). -/
def youtube_branch_records (env : Env) (topic : String) : Except ExecExc (List Rec) :=
  match env.youtube_mcp_url with
  | some _ =>
    match env.youtubeMcp with
    | .http 200 _ rs _ => .ok (rs.getD [])
    | .http 429 ra _ _ =>
      .error (.sig (.quotaExceeded (ra.bind HeaderParse.asFloat)))
    | .http _ _ _ _ => yt_search_exec (env.youtubeLocal topic)
    | .exc _ => yt_search_exec (env.youtubeLocal topic)
  | none => yt_search_exec (env.youtubeLocal topic)

/-- Backend-selection test for the Twitter branch (worker.py lines 59-63). -/
def twitter_selected (prompt_id agent_field : String) (tags : List String) : Bool :=
  prompt_id == "pr-twitter" || agent_field == "twitter_researcher"
    || tags.contains "twitter"

/-- Backend-selection test for the YouTube branch (worker.py lines 145-149). -/
def youtube_selected (prompt_id agent_field : String) (tags : List String) : Bool :=
  prompt_id == "pr-007" || agent_field == "youtube_researcher"
    || tags.contains "youtube"

/-- call_model_runner (worker.py lines 22-31): on a decoded 2xx body return
data.get("response") or data.get("result") or str(data); on any raised
exception return the fallback-mock echo string. Total: nothing escapes. -/
def call_model_runner (o : RunnerOutcome) (prompt : String) : String :=
  match o with
  | .ok d => pyOrStr d.response (pyOrStr d.result d.asStr)
  | .fail _ => "(fallback-mock) Echo: " ++ prompt

/-- process_job (worker.py lines 34-284). The body of the big try-block
computes an optional JobResult: some result on the paths that assign result,
none on the YouTube-with-MCP success path whose result assignment is
mis-indented into the no-MCP else arm (worker.py lines 250-257); the final
return result then raises UnboundLocalError in that case. Deferral signals
are re-raised; any other in-try exception becomes an error JobResult. -/
def process_job (env : Env) (job : Job) : Except ProcSig JobResult :=
  let job_id := job.id
  let p := job.payload
  let prompt := pyOrStr p.prompt ""
  let prompt_id := pyShowId (pyOrOpt p.prompt_id p.pid)
  let agent_field := p.agent.getD ""
  let tags_iter := p.tags
  let exec : Except ExecExc (Option JobResult) :=
    if twitter_selected prompt_id agent_field tags_iter then
      let topic := pyOrStr p.topic_or_person (pyOrStr p.query prompt)
      match twitter_branch env topic with
      | .error e => .error e
      | .ok records =>
        .ok (some { id := job_id, response := some (.records records),
                    finished_at := some env.now_iso })
    else if youtube_selected prompt_id agent_field tags_iter then
      let topic := pyOrStr p.topic_or_person (pyOrStr p.query prompt)
      match youtube_branch_records env topic with
      | .error e => .error e
      | .ok records =>
        match env.youtube_mcp_url with
        | some _ => .ok none
        | none =>
          .ok (some { id := job_id, response := some (.records records),
                      finished_at := some env.now_iso })
    else
      .ok (some { id := job_id,
                  response := some (.text (call_model_runner env.runner prompt)),
                  finished_at := some env.now_iso })
  match exec with
  | .ok (some result) => .ok result
  | .ok none => .error .unboundLocalError
  | .error (.sig s) => .error s
  | .error (.otherExc m) =>
    .ok { id := job_id, errMsg := some m, finished_at := some env.now_iso }

/-! ### The shared store and run_once (worker/worker.py lines 295-415)

Redis state: the live list queue tasks, the sorted set delayed_jobs (member
to score, members unique), and the string keyspace holding serialized
JobResults under job:id keys. Serialization of JobResult values is the
identity in the model; delayed-set members and queue entries are the raw
serialized job strings. -/

structure RedisState where
  tasks : List String := []
  delayed : List (String × ℚ) := []
  kv : List (String × JobResult) := []
deriving DecidableEq, Repr

/-- World state of one iteration: the shared redis state plus the runs/jobs
snapshot directory (file name to written JobResult content). -/
structure WorldState where
  rds : RedisState := {}
  files : List (String × JobResult) := []
deriving DecidableEq, Repr

/-- Per-member outcome of the zrem plus rpush pair in the requeue phase
(each wrapped in one try/except that swallows the failure). -/
inductive ReqOutcome where
  | ok : ReqOutcome
  | failZrem : ReqOutcome
  | failRpush : ReqOutcome
deriving DecidableEq, Repr

/-- Failure oracle of the redis operations one run_once iteration performs
(a false flag means that call raises). -/
structure WorkerFx where
  reqPhaseOk : Bool := true
  reqOutcome : String → ReqOutcome := fun _ => .ok
  setResultOk : Bool := true
  zaddOk : Bool := true
  setDeferredOk : Bool := true
  setFallbackOk : Bool := true

/-- One member of the requeue loop (worker.py lines 313-321): zrem then
rpush, with per-member failures swallowed. A zrem failure leaves the member
in the delayed set and skips the push; an rpush failure loses the push but
the zrem already removed the member. -/
def requeue_step (fx : String → ReqOutcome) (st : RedisState) (m : String) :
    RedisState :=
  match fx m with
  | .failZrem => st
  | .failRpush => { st with delayed := st.delayed.filter (fun p => !(p.1 == m)) }
  | .ok =>
    { st with delayed := st.delayed.filter (fun p => !(p.1 == m)),
              tasks := st.tasks ++ [m] }

/-- zrangebyscore(r, "delayed_jobs", 0, now) (worker.py line 311): the
members whose score lies in the inclusive range [0, now], in set order. -/
def due_members (delayed : List (String × ℚ)) (now : ℚ) : List String :=
  (delayed.filter (fun p => decide (0 ≤ p.2 ∧ p.2 ≤ now))).map Prod.fst

/-- The RequeueDue phase of run_once (worker.py lines 308-324): fetch the due
members once, then move each to the tasks queue, swallowing per-member
failures. -/
def requeue_due (fx : String → ReqOutcome) (now : ℚ) (st : RedisState) :
    RedisState :=
  (due_members st.delayed now).foldl (requeue_step fx) st

/-- An exception escaping run_once: json.loads of the popped entry failing
(before the try), the UnboundLocalError out of process_job, the result
rh_set raising (only the two deferral signals are caught around the Execute
step), or the fallback rh_set inside the deferral except-arm raising. -/
inductive RunErr where
  | jsonDecodeError (raw : String) : RunErr
  | unboundLocalError : RunErr
  | redisSetFailed : RunErr
  | fallbackSetFailed : RunErr
deriving DecidableEq, Repr

/-- The URL backfill on one response record before the snapshot write
(worker.py lines 348-356): when videoId is truthy and url is falsy, set url
from the YouTube watch template. -/
def enrich_rec (rec : Rec) : Rec :=
  match rec.videoId with
  | some vid =>
    if vid != "" && (rec.url == none || rec.url == some "") then
      { rec with url := some ("https://www.youtube.com/watch?v=" ++ vid) }
    else rec
  | none => rec

/-- Apply the URL backfill when the response is a record list (isinstance
list check in worker.py line 347). -/
def enrich_result (result : JobResult) : JobResult :=
  match result.response with
  | some (.records rs) =>
    { result with response := some (.records (rs.map enrich_rec)) }
  | _ => result

/-- The two snapshot writes (worker.py lines 358-372): the stable
last_job_id.json file and the timestamped job_id_ts.json file, both holding
the (enriched) result. -/
def write_job_files (files : List (String × JobResult)) (job_id : Option String)
    (ts : String) (result : JobResult) : List (String × JobResult) :=
  let idStr := pyShowId job_id
  let stable := assocSet files ("last_job_" ++ idStr ++ ".json") result
  assocSet stable ("job_" ++ idStr ++ "_" ++ ts ++ ".json") result

/-- Success-path persistence of run_once (worker.py lines 341-374): store the
result at job:id (a failure here escapes), then, only when result.get("error")
is falsy, backfill record URLs and write the two snapshot files. -/
def handle_result (env : Env) (fx : WorkerFx) (job : Job) (result : JobResult)
    (w : WorldState) : Except RunErr (Bool × WorldState) :=
  if fx.setResultOk then
    let rds2 : RedisState :=
      { w.rds with kv := assocSet w.rds.kv ("job:" ++ pyShowId job.id) result }
    if pyTruthy result.errMsg then
      .ok (true, { rds := rds2, files := w.files })
    else
      .ok (true, { rds := rds2,
                   files := write_job_files w.files job.id env.snapshot_ts
                     (enrich_result result) })
  else .error .redisSetFailed

/-- The retry_after attribute of a caught deferral signal as the except-arm
of run_once reads it (q.retry_after; none only for the uncaught
UnboundLocalError constructor, which never reaches that arm). -/
def sigRetryHint : ProcSig → Option ℚ
  | .quotaExceeded ra => ra
  | .rateLimitExceeded n => some (n : ℚ)
  | .unboundLocalError => none

/-- Deferral handling of run_once (worker.py lines 381-414): resolve
retry_after to q.retry_after when truthy and positive else 60, zadd the
original raw string to delayed_jobs with score now + retry_after, and store
the deferred status; if either of those raises, fall back to storing an
error status (and a failure of the fallback set itself escapes). -/
def handle_deferral (fx : WorkerFx) (now : ℚ) (raw : String) (job : Job)
    (sig : ProcSig) (w : WorldState) : Except RunErr (Bool × WorldState) :=
  let retry_after : ℚ :=
    match sigRetryHint sig with
    | some v => if 0 < v then v else 60
    | none => 60
  let retry_at := now + retry_after
  let jobKey := "job:" ++ pyShowId job.id
  let errStatus : JobResult := { id := job.id, errMsg := some (sigMessage sig) }
  let deferStatus : JobResult :=
    { id := job.id, deferred := true, retry_after := some retry_after,
      scheduled_at := some retry_at }
  let deferFallback : RedisState → Except RunErr (Bool × WorldState) := fun rds =>
    if fx.setFallbackOk then
      .ok (true, { rds := { rds with kv := assocSet rds.kv jobKey errStatus },
                   files := w.files })
    else .error .fallbackSetFailed
  if fx.zaddOk then
    let rdsZ : RedisState :=
      { w.rds with delayed := assocSet w.rds.delayed raw retry_at }
    if fx.setDeferredOk then
      .ok (true, { rds := { rdsZ with kv := assocSet rdsZ.kv jobKey deferStatus },
                   files := w.files })
    else deferFallback rdsZ
  else deferFallback w.rds

/-- The Execute step on one popped raw entry (worker.py lines 330-414):
json.loads, process_job, then success persistence or deferral scheduling;
the UnboundLocalError out of process_job matches no except-arm and escapes. -/
def execute_popped (env : Env) (fx : WorkerFx) (parse : String → Option Job)
    (now : ℚ) (raw : String) (w : WorldState) :
    Except RunErr (Bool × WorldState) :=
  match parse raw with
  | none => .error (.jsonDecodeError raw)
  | some job =>
    match process_job env job with
    | .ok result => handle_result env fx job result w
    | .error .unboundLocalError => .error .unboundLocalError
    | .error sig => handle_deferral fx now raw job sig w

/-- The blpop step of run_once (worker.py lines 327-334) on the post-requeue
redis state: timeout on an empty queue returns false, otherwise pop the head
and execute it. -/
def blpop_and_execute (env : Env) (fx : WorkerFx) (parse : String → Option Job)
    (now : ℚ) (rds0 : RedisState) (files : List (String × JobResult)) :
    Except RunErr (Bool × WorldState) :=
  match rds0.tasks with
  | [] => .ok (false, { rds := rds0, files := files })
  | raw :: rest =>
    execute_popped env fx parse now raw
      { rds := { rds0 with tasks := rest }, files := files }

/-- run_once (worker.py lines 295-415): requeue due delayed jobs (the whole
phase is skipped when its outer try catches, reqPhaseOk = false), then blpop
one entry from tasks (returning false on timeout) and execute it. -/
def run_once (env : Env) (fx : WorkerFx) (parse : String → Option Job)
    (now : ℚ) (st : WorldState) : Except RunErr (Bool × WorldState) :=
  blpop_and_execute env fx parse now
    (if fx.reqPhaseOk then requeue_due fx.reqOutcome now st.rds else st.rds)
    st.files

/-! ### Concrete fixtures for the YouTube dispatch scenarios (C1, C2) -/

/-- A YouTube research job as enqueued by the API (prompt_id pr-007). -/
def jobY : Job :=
  { id := some "j1",
    payload := { prompt_id := some "pr-007", query := some "climate" } }

/-- The serialized queue entry for jobY (its exact bytes are opaque to the
model; parseJobY is the json.loads relation for it). -/
def rawY : String := "rawY"

/-- json.loads for this scenario. -/
def parseJobY : String → Option Job :=
  fun s => if s == rawY then some jobY else none

/-- One response record returned by the backend. -/
def recA : Rec := { videoId := some "v1", body := "record-v1" }

/-- Environment with YOUTUBE_MCP_URL configured and the MCP endpoint
answering 200 with one record. -/
def envYmcp : Env :=
  { youtube_mcp_url := some "http://mcp:9000",
    youtubeMcp := .http 200 none (some [recA]) "",
    now_iso := "2026-01-01T00:00:00+00:00",
    snapshot_ts := "20260101T000000Z" }

/-- Environment without an MCP endpoint, local researcher returning one
record. -/
def envYlocal : Env :=
  { youtubeLocal := fun _ => .ok [recA],
    now_iso := "2026-01-01T00:00:00+00:00",
    snapshot_ts := "20260101T000000Z" }

/-- Initial world: jobY sitting in the tasks queue, nothing else. -/
def stY : WorldState := { rds := { tasks := [rawY] } }

/-- All redis operations succeed. -/
def fxOk : WorkerFx := {}

/-- The JobResult the YouTube success path builds for jobY. -/
def successResultY : JobResult :=
  { id := some "j1", response := some (.records [recA]),
    finished_at := some "2026-01-01T00:00:00+00:00" }

/-! ### Concrete fixtures for the Twitter dispatch scenarios (C3, C7, C9) -/

/-- A Twitter research job (prompt_id pr-twitter). -/
def jobT : Job :=
  { id := some "t1",
    payload := { prompt_id := some "pr-twitter", query := some "ai" } }

/-- The serialized queue entry for jobT. -/
def rawT : String := "rawT"

/-- json.loads for the Twitter scenarios. -/
def parseJobT : String → Option Job :=
  fun s => if s == rawT then some jobT else none

/-- Environment without MCP whose local Twitter researcher raises
RateLimitExceeded(30). -/
def envT30 : Env :=
  { twitterLocal := fun _ => .rateLimited 30,
    now_iso := "2026-01-01T00:00:00+00:00",
    snapshot_ts := "20260101T000000Z" }

/-- Environment whose local Twitter researcher raises an exception with an
empty message (for example ValueError() with no arguments: str(e) is ""). -/
def envTerrEmpty : Env :=
  { twitterLocal := fun _ => .failed "",
    now_iso := "2026-01-01T00:00:00+00:00",
    snapshot_ts := "20260101T000000Z" }

/-- Environment whose local Twitter researcher raises ValueError("boom"). -/
def envTerr : Env :=
  { twitterLocal := fun _ => .failed "boom",
    now_iso := "2026-01-01T00:00:00+00:00",
    snapshot_ts := "20260101T000000Z" }

/-- Initial world for the Twitter scenarios: jobT in the tasks queue. -/
def stT : WorldState := { rds := { tasks := [rawT] } }

/-- The redis fx where zadd on delayed_jobs raises (C9 scenario). -/
def fxNoZadd : WorkerFx := { zaddOk := false }

/-- World after one iteration on jobT when the backend rate-limits with
hint 30 and scheduling succeeds. -/
def W30 : WorldState :=
  { rds := { tasks := [],
             delayed := [(rawT, 130)],
             kv := [("job:t1",
               { id := some "t1", deferred := true, retry_after := some 30,
                 scheduled_at := some 130 })] },
    files := [] }

/-- World after one iteration on jobT when the backend rate-limits with
hint 30 but the zadd raises, so the fallback error status is stored. -/
def W9 : WorldState :=
  { rds := { tasks := [], delayed := [],
             kv := [("job:t1",
               { id := some "t1",
                 errMsg := some (sigMessage (.rateLimitExceeded 30)) })] },
    files := [] }

/-- World after one iteration on jobT when the backend raises
ValueError("boom"): error status stored, nothing written to runs/jobs. -/
def W7 : WorldState :=
  { rds := { tasks := [], delayed := [],
             kv := [("job:t1",
               { id := some "t1", errMsg := some "boom",
                 finished_at := some "2026-01-01T00:00:00+00:00" })] },
    files := [] }

/-- A delayed set with one member due at 5 and one not yet due at 200. -/
def st6 : RedisState :=
  { tasks := [], delayed := [("a", 5), ("b", 200)], kv := [] }

/-- The error JobResult built for a backend exception whose str() is empty. -/
def errEmptyResult : JobResult :=
  { id := some "t1", errMsg := some "",
    finished_at := some "2026-01-01T00:00:00+00:00" }

/-- An unmatched job and an unreachable model runner. -/
def jobG : Job := { id := some "g1", payload := { prompt := some "hello" } }

/-- Environment whose model-runner POST raises ConnectionError. -/
def envG : Env :=
  { runner := .fail "ConnectionError",
    now_iso := "2026-01-01T00:00:00+00:00" }

/-! ### Concurrent block-state writes (C8)

youtube_researcher.py _save_state (lines 112-172). Statement-level steps of
one _save_state(path, data) call, with each step atomic: open(tmp, "w")
creates or truncates the temp file (line 119), json.dump plus flush/fsync
fills it (lines 120-125), and os.replace(tmp, path) atomically installs it
as the canonical file (lines 128-168; a missing tmp makes os.replace raise
FileNotFoundError, swallowed by the outer try). The temp path is the fixed
path + ".tmp" (line 114), shared by every process writing this backend, and
the cooperative lock is held only around the replace step, so it does not
serialize truncate/write against another process. -/

/-- Content of a file of the Block-State Store: a zero-byte (truncated) file,
which is not valid JSON, or a serialized state dict with its blocked_until
value. -/
inductive FileVal where
  | empty : FileVal
  | json (blocked_until : ℚ) : FileVal
deriving DecidableEq, Repr

/-- The two paths _save_state touches: the shared temp file path + ".tmp"
and the canonical state file; none means the path does not exist. -/
structure StoreFs where
  tmp : Option FileVal := none
  canonical : Option FileVal := none
deriving DecidableEq, Repr

/-- One atomic statement of _save_state. -/
inductive SaveStep where
  | truncateTmp : SaveStep
  | writeTmp : SaveStep
  | replaceTmp : SaveStep
deriving DecidableEq, Repr

/-- The statement sequence one _save_state(path, {blocked_until: t}) call
executes. -/
def save_state_prog : List SaveStep :=
  [.truncateTmp, .writeTmp, .replaceTmp]

/-- Effect of one statement of a writer whose payload is t: truncate leaves a
zero-byte tmp, the dump fills it, os.replace moves it onto the canonical
path (and is a swallowed FileNotFoundError when another process already
moved the tmp away). -/
def save_step (t : ℚ) : SaveStep → StoreFs → StoreFs
  | .truncateTmp, fs => { fs with tmp := some .empty }
  | .writeTmp, fs => { fs with tmp := some (.json t) }
  | .replaceTmp, fs =>
    match fs.tmp with
    | some v => { tmp := none, canonical := some v }
    | none => fs

/-- One scheduler step: process i (its payload and remaining statements)
executes its next statement; an index that is finished or out of range is a
no-op. -/
def sched_step (st : StoreFs × List (ℚ × List SaveStep)) (i : Nat) :
    StoreFs × List (ℚ × List SaveStep) :=
  match st.2[i]? with
  | some (t, s :: rest) => (save_step t s st.1, st.2.set i (t, rest))
  | some (_, []) => st
  | none => st

/-- Run N concurrent _save_state calls under an interleaving: sched lists,
in order, which process executes its next atomic statement. -/
def run_sched (sched : List Nat)
    (st : StoreFs × List (ℚ × List SaveStep)) :
    StoreFs × List (ℚ × List SaveStep) :=
  sched.foldl sched_step st

/-- Whether a reader of the canonical file observes valid JSON holding one
of the given blocked_until values (the observation the claim asserts for
every reader). -/
def observes_one_of (fs : StoreFs) (vals : List ℚ) : Bool :=
  vals.any (fun t => fs.canonical == some (.json t))

theorem assocGet_assocSet {β : Type} (l : List (String × β)) (k : String) (v : β) :
    assocGet (assocSet l k v) k = some v := by
  simp [assocGet, assocSet, List.find?]

/-! ### Lemmas about the requeue phase -/

theorem requeue_step_delayed_subset (fx : String → ReqOutcome) (st : RedisState)
    (m : String) (p : String × ℚ) (hp : p ∈ (requeue_step fx st m).delayed) :
    p ∈ st.delayed := by
  cases h : fx m <;> rw [requeue_step, h] at hp
  · exact (List.mem_filter.mp hp).1
  · exact hp
  · exact (List.mem_filter.mp hp).1

theorem foldl_requeue_delayed_subset (fx : String → ReqOutcome) (l : List String)
    (st : RedisState) (p : String × ℚ)
    (hp : p ∈ (l.foldl (requeue_step fx) st).delayed) : p ∈ st.delayed := by
  induction l generalizing st with
  | nil => exact hp
  | cons a t ih =>
    exact requeue_step_delayed_subset fx st a p (ih (requeue_step fx st a) hp)

theorem requeue_step_tasks_append (fx : String → ReqOutcome) (st : RedisState)
    (m : String) : ∃ t2, (requeue_step fx st m).tasks = st.tasks ++ t2 := by
  cases h : fx m
  · exact ⟨[m], by rw [requeue_step, h]⟩
  · exact ⟨[], by rw [requeue_step, h, List.append_nil]⟩
  · exact ⟨[], by rw [requeue_step, h, List.append_nil]⟩

theorem foldl_requeue_tasks_append (fx : String → ReqOutcome) (l : List String)
    (st : RedisState) :
    ∃ l2, (l.foldl (requeue_step fx) st).tasks = st.tasks ++ l2 := by
  induction l generalizing st with
  | nil => exact ⟨[], by simp⟩
  | cons a t ih =>
    obtain ⟨t2, ht2⟩ := requeue_step_tasks_append fx st a
    obtain ⟨l2, hl2⟩ := ih (requeue_step fx st a)
    exact ⟨t2 ++ l2, by rw [List.foldl_cons, hl2, ht2, List.append_assoc]⟩

theorem requeue_due_tasks_append (fx : String → ReqOutcome) (now : ℚ)
    (st : RedisState) :
    ∃ l2, (requeue_due fx now st).tasks = st.tasks ++ l2 :=
  foldl_requeue_tasks_append fx (due_members st.delayed now) st

theorem foldl_requeue_moves (fx : String → ReqOutcome) (l : List String)
    (st : RedisState) (m : String) (hm : m ∈ l) (hok : fx m = .ok) :
    (∀ p ∈ (l.foldl (requeue_step fx) st).delayed, p.1 ≠ m) ∧
    m ∈ (l.foldl (requeue_step fx) st).tasks := by
  induction l generalizing st with
  | nil => cases hm
  | cons a t ih =>
    rw [List.foldl_cons]
    rcases eq_or_ne a m with rfl | hne
    · constructor
      · intro p hp
        have hp2 := foldl_requeue_delayed_subset fx t (requeue_step fx st a) p hp
        rw [requeue_step, hok] at hp2
        have := (List.mem_filter.mp hp2).2
        simpa using this
      · obtain ⟨l2, hl2⟩ := foldl_requeue_tasks_append fx t (requeue_step fx st a)
        rw [hl2, requeue_step, hok]
        simp
    · have hmt : m ∈ t := by
        rcases List.mem_cons.mp hm with h | h
        · exact absurd h.symm hne
        · exact h
      exact ih (requeue_step fx st a) hmt

theorem requeue_due_moves (fx : String → ReqOutcome) (now : ℚ) (st : RedisState)
    (m : String) (s : ℚ) (hmem : (m, s) ∈ st.delayed) (h0 : 0 ≤ s)
    (hnow : s ≤ now) (hok : fx m = .ok) :
    (∀ p ∈ (requeue_due fx now st).delayed, p.1 ≠ m) ∧
    m ∈ (requeue_due fx now st).tasks := by
  apply foldl_requeue_moves fx _ st m _ hok
  rw [due_members]
  exact List.mem_map.mpr ⟨(m, s), List.mem_filter.mpr ⟨hmem, by simp [h0, hnow]⟩, rfl⟩

theorem requeue_due_idempotent (fx fx2 : String → ReqOutcome) (now : ℚ)
    (st : RedisState) (hall : ∀ x, fx x = .ok) :
    requeue_due fx2 now (requeue_due fx now st) = requeue_due fx now st := by
  have hdue : due_members (requeue_due fx now st).delayed now = [] := by
    rw [due_members, List.map_eq_nil_iff, List.filter_eq_nil_iff]
    rintro ⟨m, s⟩ hp hdec
    have hrange : 0 ≤ s ∧ s ≤ now := by simpa using hdec
    have hmem : (m, s) ∈ st.delayed :=
      foldl_requeue_delayed_subset fx (due_members st.delayed now) st (m, s) hp
    exact (requeue_due_moves fx now st m s hmem hrange.1 hrange.2 (hall m)).1
      (m, s) hp rfl
  rw [requeue_due, hdue]
  rfl

/-! ### Lemmas unfolding one dispatch iteration -/

theorem blpop_execute_cons (env : Env) (fx : WorkerFx)
    (parse : String → Option Job) (now : ℚ) (rds0 : RedisState)
    (files : List (String × JobResult)) (raw : String) (rest : List String)
    (h : rds0.tasks = raw :: rest) :
    blpop_and_execute env fx parse now rds0 files =
      execute_popped env fx parse now raw
        { rds := { rds0 with tasks := rest }, files := files } := by
  obtain ⟨tasks, delayed, kv⟩ := rds0
  simp only at h
  subst h
  rfl

/-- When the pre-iteration queue has head raw, the iteration parses and
executes raw on some post-requeue redis state whose queue head was removed
(the requeue phase only appends to the queue). -/
theorem run_once_pop (env : Env) (fx : WorkerFx) (parse : String → Option Job)
    (now : ℚ) (st : WorldState) (raw : String) (rest : List String)
    (htasks : st.rds.tasks = raw :: rest) :
    ∃ rds1 : RedisState, run_once env fx parse now st =
      execute_popped env fx parse now raw { rds := rds1, files := st.files } := by
  by_cases hph : fx.reqPhaseOk = true
  · obtain ⟨l2, hl2⟩ := requeue_due_tasks_append fx.reqOutcome now st.rds
    refine ⟨{ requeue_due fx.reqOutcome now st.rds with tasks := rest ++ l2 }, ?_⟩
    rw [run_once, if_pos hph]
    exact blpop_execute_cons env fx parse now _ st.files raw (rest ++ l2)
      (by rw [hl2, htasks]; rfl)
  · refine ⟨{ st.rds with tasks := rest }, ?_⟩
    rw [run_once, if_neg hph]
    exact blpop_execute_cons env fx parse now _ st.files raw rest htasks

/-! ### Lemmas about the Execute-step handlers -/

theorem handle_deferral_scheduled (fx : WorkerFx) (now : ℚ) (raw : String)
    (job : Job) (sig : ProcSig) (w : WorldState) (r : ℚ)
    (hsig : sigRetryHint sig = some r)
    (hzadd : fx.zaddOk = true) (hset : fx.setDeferredOk = true) :
    handle_deferral fx now raw job sig w =
      .ok (true,
        { rds := { tasks := w.rds.tasks,
                   delayed := assocSet w.rds.delayed raw
                     (now + (if 0 < r then r else 60)),
                   kv := assocSet w.rds.kv ("job:" ++ pyShowId job.id)
                     { id := job.id, deferred := true,
                       retry_after := some (if 0 < r then r else 60),
                       scheduled_at := some (now + (if 0 < r then r else 60)) } },
          files := w.files }) := by
  rw [handle_deferral, hsig, hzadd, hset]
  rfl

theorem handle_deferral_fallback (fx : WorkerFx) (now : ℚ) (raw : String)
    (job : Job) (sig : ProcSig) (w : WorldState)
    (hfail : fx.zaddOk = false ∨ fx.setDeferredOk = false)
    (hfb : fx.setFallbackOk = true) :
    ∃ delayed2,
      handle_deferral fx now raw job sig w =
        .ok (true,
          { rds := { tasks := w.rds.tasks, delayed := delayed2,
                     kv := assocSet w.rds.kv ("job:" ++ pyShowId job.id)
                       { id := job.id, errMsg := some (sigMessage sig) } },
            files := w.files }) := by
  rcases hfail with h | h
  · refine ⟨w.rds.delayed, ?_⟩
    rw [handle_deferral, h, hfb]
    rfl
  · rcases hz : fx.zaddOk with _ | _
    · refine ⟨w.rds.delayed, ?_⟩
      rw [handle_deferral, hz, hfb]
      rfl
    · refine ⟨assocSet w.rds.delayed raw
        (now + (match sigRetryHint sig with
                | some v => if 0 < v then v else 60
                | none => 60)), ?_⟩
      rw [handle_deferral, hz, h, hfb]
      rfl

theorem handle_result_stored (env : Env) (fx : WorkerFx) (job : Job)
    (result : JobResult) (w : WorldState) (hset : fx.setResultOk = true)
    (herr : pyTruthy result.errMsg = true) :
    handle_result env fx job result w =
      .ok (true,
        { rds := { w.rds with
                   kv := assocSet w.rds.kv ("job:" ++ pyShowId job.id) result },
          files := w.files }) := by
  rw [handle_result, hset, herr]
  rfl

theorem handle_result_success (env : Env) (fx : WorkerFx) (job : Job)
    (result : JobResult) (w : WorldState) (hset : fx.setResultOk = true)
    (herr : pyTruthy result.errMsg = false) :
    handle_result env fx job result w =
      .ok (true,
        { rds := { w.rds with
                   kv := assocSet w.rds.kv ("job:" ++ pyShowId job.id) result },
          files := write_job_files w.files job.id env.snapshot_ts
            (enrich_result result) }) := by
  rw [handle_result, hset, herr]
  rfl

theorem execute_popped_deferral (env : Env) (fx : WorkerFx)
    (parse : String → Option Job) (now : ℚ) (raw : String) (w : WorldState)
    (job : Job) (sig : ProcSig)
    (hparse : parse raw = some job)
    (hproc : process_job env job = .error sig)
    (hne : sig ≠ ProcSig.unboundLocalError) :
    execute_popped env fx parse now raw w = handle_deferral fx now raw job sig w := by
  simp only [execute_popped, hparse, hproc]

theorem execute_popped_result (env : Env) (fx : WorkerFx)
    (parse : String → Option Job) (now : ℚ) (raw : String) (w : WorldState)
    (job : Job) (result : JobResult)
    (hparse : parse raw = some job)
    (hproc : process_job env job = .ok result) :
    execute_popped env fx parse now raw w = handle_result env fx job result w := by
  simp only [execute_popped, hparse, hproc]

theorem run_once_T30_eval :
    run_once envT30 fxOk parseJobT 100 stT = .ok (true, W30) := by
  have h1 : run_once envT30 fxOk parseJobT 100 stT =
      handle_deferral fxOk 100 rawT jobT (.rateLimitExceeded 30)
        { rds := { tasks := [], delayed := [], kv := [] }, files := [] } := by
    rfl
  rw [h1, handle_deferral_scheduled fxOk 100 rawT jobT (.rateLimitExceeded 30)
        _ 30 (by norm_num [sigRetryHint]) rfl rfl]
  have h30 : (if (0 : ℚ) < 30 then (30 : ℚ) else 60) = 30 := if_pos (by norm_num)
  have h130 : (100 : ℚ) + 30 = 130 := by norm_num
  simp only [h30, h130]
  rfl

theorem run_once_T30_fallback_eval :
    run_once envT30 fxNoZadd parseJobT 100 stT = .ok (true, W9) := by
  rfl

theorem run_once_Terr_eval :
    run_once envTerr fxOk parseJobT 100 stT = .ok (true, W7) := by
  rfl

/-- C1: the claim says the deferral signal is the only exception that escapes
the Execute step and run_once never raises on a single bad job. The code
violates it: for a YouTube job with YOUTUBE_MCP_URL configured and the MCP
answering 200 with records, the mis-indented success assignment (worker.py
lines 250-257 sit inside the no-MCP else arm) leaves result unassigned, and
the final return raises UnboundLocalError, which matches no except-arm and
escapes both process_job and run_once. -/
theorem claim_C1_unbound_local_escapes :
    process_job envYmcp jobY = .error .unboundLocalError ∧
    run_once envYmcp fxOk parseJobY 100 stY = .error .unboundLocalError :=
  ⟨rfl, rfl⟩

/-- C2: the claim says a successful backend call yields a JobResult with the
job id, the response and a finished_at timestamp, stored at job:id, for the
YouTube branch both with and without an MCP endpoint. Without MCP this holds
(first two conjuncts); with MCP configured the code instead raises
UnboundLocalError from the mis-indented result assignment (third conjunct),
so the claim fails on the with-MCP half. -/
theorem claim_C2_youtube_result :
    process_job envYlocal jobY = .ok successResultY ∧
    (run_once envYlocal fxOk parseJobY 100 stY).toOption.map
        (fun x => (x.1, assocGet x.2.rds.kv "job:j1")) =
      some (true, some successResultY) ∧
    process_job envYmcp jobY = .error .unboundLocalError :=
  ⟨rfl, rfl, rfl⟩

/-- C3 counterexample: with deferral hint r = 30 the code schedules the job
at score now + 30 (and stores scheduled_at = 130 for now = 100), not within
a small epsilon of now + max(r, 60) = 160 as the claim states. -/
theorem claim_C3_counterexample :
    run_once envT30 fxOk parseJobT 100 stT = .ok (true, W30) ∧
    W30.rds.delayed = [(rawT, 130)] ∧
    (130 : ℚ) = 100 + 30 ∧
    ¬ |(130 : ℚ) - (100 + max 30 60)| ≤ 1 := by
  refine ⟨run_once_T30_eval, rfl, by norm_num, ?_⟩
  have hmax : max (30 : ℚ) 60 = 60 := max_eq_right (by norm_num)
  have h2 : (130 : ℚ) - (100 + max 30 60) = -30 := by rw [hmax]; norm_num
  rw [h2, abs_neg, abs_of_nonneg (by norm_num : (0 : ℚ) ≤ 30)]
  norm_num

/-- C3 (amended): for a job whose backend raises a deferral signal with hint
r, one iteration adds the original raw bytes to the delayed set with score
exactly now + (r when 0 < r, else 60) — not now + max(r, 60) — and stores a
deferred JobResult with that retry_after and scheduled_at equal to the score
(both time.time() calls modelled as the same instant, so the claimed epsilon
window collapses to exact equality). -/
theorem claim_C3_deferral_schedule (env : Env) (fx : WorkerFx)
    (parse : String → Option Job) (now : ℚ) (st : WorldState)
    (raw : String) (rest : List String) (job : Job) (sig : ProcSig) (r : ℚ)
    (flag : Bool) (W : WorldState)
    (htasks : st.rds.tasks = raw :: rest)
    (hparse : parse raw = some job)
    (hproc : process_job env job = .error sig)
    (hsig : sigRetryHint sig = some r)
    (hzadd : fx.zaddOk = true) (hset : fx.setDeferredOk = true)
    (hrun : run_once env fx parse now st = .ok (flag, W)) :
    flag = true ∧
    (raw, now + (if 0 < r then r else 60)) ∈ W.rds.delayed ∧
    assocGet W.rds.kv ("job:" ++ pyShowId job.id) =
      some { id := job.id, deferred := true,
             retry_after := some (if 0 < r then r else 60),
             scheduled_at := some (now + (if 0 < r then r else 60)) } := by
  have hne : sig ≠ ProcSig.unboundLocalError := by
    intro h
    rw [h] at hsig
    simp [sigRetryHint] at hsig
  obtain ⟨rds1, hpop⟩ := run_once_pop env fx parse now st raw rest htasks
  rw [hpop, execute_popped_deferral env fx parse now raw _ job sig hparse hproc hne,
      handle_deferral_scheduled fx now raw job sig _ r hsig hzadd hset] at hrun
  have h1 := Except.ok.inj hrun
  rw [Prod.mk.injEq] at h1
  obtain ⟨hflag, hW⟩ := h1
  subst hW
  refine ⟨hflag.symm, ?_, ?_⟩
  · exact List.mem_cons_self _ _
  · exact assocGet_assocSet _ _ _

/-- C3 witness: the amended theorem applied to the concrete r = 30 scenario. -/
theorem claim_C3_deferral_schedule_witness :
    true = true ∧
    (rawT, (100 : ℚ) + (if (0 : ℚ) < 30 then (30 : ℚ) else 60)) ∈ W30.rds.delayed ∧
    assocGet W30.rds.kv ("job:" ++ pyShowId jobT.id) =
      some { id := jobT.id, deferred := true,
             retry_after := some (if (0 : ℚ) < 30 then (30 : ℚ) else 60),
             scheduled_at := some ((100 : ℚ) + (if (0 : ℚ) < 30 then (30 : ℚ) else 60)) } :=
  claim_C3_deferral_schedule envT30 fxOk parseJobT 100 stT rawT [] jobT
    (.rateLimitExceeded 30) 30 true W30 rfl rfl rfl (by norm_num [sigRetryHint])
    rfl rfl run_once_T30_eval

/-- C4 counterexample: the Twitter wrapper, given Retry-After "0" (numeric
parse succeeds with value 0, a non-positive value), raises
RateLimitExceeded(0): the resolved delay is 0, not at least 60 as the claim
states for non-positive header values. -/
theorem claim_C4_counterexample :
    tw_resolve_429 (some { asFloat := some 0, asInt := some 0, asDate := none })
        1000 = 0 ∧
    ¬ (60 ≤ tw_resolve_429
        (some { asFloat := some 0, asInt := some 0, asDate := none }) 1000) := by
  constructor
  · rfl
  · decide

/-- C4 (amended): the YouTube wrapper resolves exactly as the claim states
(numeric value when positive, else seconds-until-date when positive, else
max(backoff, 60) which is at least 60). The Twitter wrapper uses integer
parsing and raises the parsed value as-is, even when zero or negative; its
60-second fallback applies only when the header is absent or both parses
fail. -/
theorem claim_C4_retry_after (p : HeaderParse) (now backoff : ℚ) :
    (∀ v, p.asFloat = some v → 0 < v →
      yt_resolve_429 (some p) now backoff = v) ∧
    (∀ ts, p.asFloat = none → p.asDate = some ts → 0 < ts - now →
      yt_resolve_429 (some p) now backoff = ts - now) ∧
    (∀ v, p.asFloat = some v → ¬ 0 < v →
      yt_resolve_429 (some p) now backoff = max backoff 60) ∧
    (∀ ts, p.asFloat = none → p.asDate = some ts → ¬ 0 < ts - now →
      yt_resolve_429 (some p) now backoff = max backoff 60) ∧
    (p.asFloat = none → p.asDate = none →
      yt_resolve_429 (some p) now backoff = max backoff 60) ∧
    yt_resolve_429 none now backoff = max backoff 60 ∧
    (60 : ℚ) ≤ max backoff 60 ∧
    (∀ v, p.asInt = some v → tw_resolve_429 (some p) now = v) ∧
    (∀ ts, p.asInt = none → p.asDate = some ts →
      tw_resolve_429 (some p) now = ratTrunc (ts - now)) ∧
    (p.asInt = none → p.asDate = none → tw_resolve_429 (some p) now = 60) ∧
    tw_resolve_429 none now = 60 := by
  obtain ⟨f, i, d⟩ := p
  refine ⟨?_, ?_, ?_, ?_, ?_, rfl, le_max_right _ _, ?_, ?_, ?_, rfl⟩ <;>
    intros <;> simp_all [yt_resolve_429, tw_resolve_429]

/-- C4 witness: the amended theorem at the concrete headers "10" (both
wrappers resolve 10) and a header whose parses all fail (YouTube falls back
to max(backoff, 60) = 60 for backoff 1). -/
theorem claim_C4_retry_after_witness :
    yt_resolve_429 (some { asFloat := some 10, asInt := some 10, asDate := none })
      0 1 = 10 ∧
    tw_resolve_429 (some { asFloat := some 10, asInt := some 10, asDate := none })
      0 = 10 ∧
    yt_resolve_429 (some { asFloat := none, asInt := none, asDate := none })
      0 1 = max 1 60 := by
  refine ⟨?_, ?_, ?_⟩
  · exact (claim_C4_retry_after ⟨some 10, some 10, none⟩ 0 1).1 10 rfl (by norm_num)
  · exact (claim_C4_retry_after ⟨some 10, some 10, none⟩ 0 1).2.2.2.2.2.2.2.1 10 rfl
  · exact (claim_C4_retry_after ⟨none, none, none⟩ 0 1).2.2.2.2.1 rfl rfl

/-- C5 counterexample: the Twitter block-state reader raises on a malformed
state file (json.JSONDecodeError escapes: only FileNotFoundError is caught in
twitter_researcher.py lines 36-41), so the claim that reading never raises
for both backends is false. -/
theorem claim_C5_counterexample :
    tw_load_state (.content none) = .error .jsonDecodeError ∧
    (tw_load_state (.content none)).isOk = false :=
  ⟨rfl, rfl⟩

/-- C5 (amended): the YouTube reader never raises — every failure outcome
(missing file, malformed JSON, other I/O error) returns the empty state —
but the Twitter reader swallows only FileNotFoundError and propagates JSON
parse failures and other I/O errors. -/
theorem claim_C5_block_state_read (o : ReadOutcome) :
    (∀ d, o = .content (some d) → yt_load_state o = d ∧ tw_load_state o = .ok d) ∧
    (o = .missing → yt_load_state o = [] ∧ tw_load_state o = .ok []) ∧
    (o = .content none → yt_load_state o = [] ∧
      tw_load_state o = .error .jsonDecodeError) ∧
    (∀ m, o = .ioFail m → yt_load_state o = [] ∧
      tw_load_state o = .error (.osError m)) := by
  cases o with
  | missing => simp [yt_load_state, tw_load_state]
  | content parsed =>
    cases parsed <;> simp [yt_load_state, tw_load_state]
  | ioFail m => simp [yt_load_state, tw_load_state]

/-- C5 witness: the amended theorem at a malformed state file and at a
present, well-formed one. -/
theorem claim_C5_block_state_read_witness :
    (yt_load_state (.content none) = [] ∧
      tw_load_state (.content none) = .error .jsonDecodeError) ∧
    (yt_load_state (.content (some [("blocked_until", 5)])) =
        [("blocked_until", 5)] ∧
      tw_load_state (.content (some [("blocked_until", 5)])) =
        .ok [("blocked_until", 5)]) :=
  ⟨(claim_C5_block_state_read (.content none)).2.2.1 rfl,
   (claim_C5_block_state_read (.content (some [("blocked_until", 5)]))).1
     [("blocked_until", 5)] rfl⟩

/-- C6 counterexample: the range query of the requeue phase is
zrangebyscore(delayed_jobs, 0, now), whose lower bound excludes negative
scores, so a member with score -1 ≤ now = 0 is neither removed nor pushed,
against the claim as stated for every score ≤ now. -/
theorem claim_C6_counterexample :
    requeue_due (fun _ => .ok) 0
        { tasks := [], delayed := [("j", -1)], kv := [] } =
      { tasks := [], delayed := [("j", -1)], kv := [] } ∧
    (-1 : ℚ) ≤ 0 := by
  refine ⟨?_, by norm_num⟩
  have h : due_members [("j", (-1 : ℚ))] 0 = [] := by
    norm_num [due_members]
  rw [requeue_due]
  show (due_members [("j", (-1 : ℚ))] 0).foldl _ _ = _
  rw [h]
  rfl

/-- C6 (amended): for every delayed member with score in [0, now] (the
inclusive range of the zrangebyscore call) whose zrem and rpush succeed, one
RequeueDue phase removes it from the delayed set and pushes it onto the live
queue regardless of the outcomes on other members (failure isolation), and
after an all-success phase a second phase with no new arrivals is a no-op,
so it pushes no duplicates. -/
theorem claim_C6_requeue_due (fx fx2 : String → ReqOutcome) (now : ℚ)
    (st : RedisState) (m : String) (s : ℚ)
    (hmem : (m, s) ∈ st.delayed) (h0 : 0 ≤ s) (hnow : s ≤ now)
    (hok : fx m = .ok) :
    (∀ p ∈ (requeue_due fx now st).delayed, p.1 ≠ m) ∧
    m ∈ (requeue_due fx now st).tasks ∧
    ((∀ x, fx x = .ok) →
      requeue_due fx2 now (requeue_due fx now st) = requeue_due fx now st) := by
  obtain ⟨h1, h2⟩ := requeue_due_moves fx now st m s hmem h0 hnow hok
  exact ⟨h1, h2, fun hall => requeue_due_idempotent fx fx2 now st hall⟩

/-- C6 witness: the amended theorem on a two-member delayed set with one due
member, followed by a second phase. -/
theorem claim_C6_requeue_due_witness :
    "a" ∈ (requeue_due (fun _ => .ok) 100 st6).tasks ∧
    requeue_due (fun _ => .failZrem) 100 (requeue_due (fun _ => .ok) 100 st6) =
      requeue_due (fun _ => .ok) 100 st6 := by
  have h := claim_C6_requeue_due (fun _ => .ok) (fun _ => .failZrem) 100 st6
    "a" 5 (by simp [st6]) (by norm_num) (by norm_num) rfl
  exact ⟨h.2.1, h.2.2 (fun x => rfl)⟩

/-- C7 counterexample: a backend exception with empty message (for example a
bare ValueError()) yields a stored JobResult whose error field is the empty
string; the falsy-check result.get("error") then lets the snapshot writes
run, so last_job_t1.json is written to the durable directory, against the
claim that nothing is written for a job whose backend raised. -/
theorem claim_C7_counterexample :
    process_job envTerrEmpty jobT = .ok errEmptyResult ∧
    (run_once envTerrEmpty fxOk parseJobT 100 stT).toOption.map
        (fun x => (x.1, assocGet x.2.rds.kv "job:t1",
                   assocGet x.2.files "last_job_t1.json")) =
      some (true, some errEmptyResult, some errEmptyResult) ∧
    stT.files = [] :=
  ⟨rfl, rfl, rfl⟩

/-- C7 (amended): for every job whose Execute step produced an error
JobResult with a non-empty message (as every caught backend exception with a
non-empty str() does), the iteration stores that result at job:id and leaves
the durable snapshot directory untouched. -/
theorem claim_C7_error_isolation (env : Env) (fx : WorkerFx)
    (parse : String → Option Job) (now : ℚ) (st : WorldState)
    (raw : String) (rest : List String) (job : Job) (result : JobResult)
    (msg : String) (flag : Bool) (W : WorldState)
    (htasks : st.rds.tasks = raw :: rest)
    (hparse : parse raw = some job)
    (hproc : process_job env job = .ok result)
    (herr : result.errMsg = some msg) (hmsg : msg ≠ "")
    (hset : fx.setResultOk = true)
    (hrun : run_once env fx parse now st = .ok (flag, W)) :
    flag = true ∧
    assocGet W.rds.kv ("job:" ++ pyShowId job.id) = some result ∧
    W.files = st.files := by
  have htr : pyTruthy result.errMsg = true := by
    simp [pyTruthy, herr, bne_iff_ne]
    exact hmsg
  obtain ⟨rds1, hpop⟩ := run_once_pop env fx parse now st raw rest htasks
  rw [hpop, execute_popped_result env fx parse now raw _ job result hparse hproc,
      handle_result_stored env fx job result _ hset htr] at hrun
  have h1 := Except.ok.inj hrun
  rw [Prod.mk.injEq] at h1
  obtain ⟨hflag, hW⟩ := h1
  subst hW
  exact ⟨hflag.symm, assocGet_assocSet _ _ _, rfl⟩

/-- C7 witness: the amended theorem on the ValueError("boom") scenario. -/
theorem claim_C7_error_isolation_witness :
    true = true ∧
    assocGet W7.rds.kv ("job:" ++ pyShowId jobT.id) =
      some { id := some "t1", errMsg := some "boom",
             finished_at := some "2026-01-01T00:00:00+00:00" } ∧
    W7.files = stT.files :=
  claim_C7_error_isolation envTerr fxOk parseJobT 100 stT rawT [] jobT
    { id := some "t1", errMsg := some "boom",
      finished_at := some "2026-01-01T00:00:00+00:00" }
    "boom" true W7 rfl rfl rfl rfl (by decide) rfl run_once_Terr_eval

/-- C9: if scheduling the deferred retry fails (zadd on delayed_jobs raises,
or the deferred-status set raises), the except-arm falls back to storing the
error JobResult with the job id and the stringified signal at the fast-lookup
slot, and the iteration still returns work-done. -/
theorem claim_C9_deferral_fallback (env : Env) (fx : WorkerFx)
    (parse : String → Option Job) (now : ℚ) (st : WorldState)
    (raw : String) (rest : List String) (job : Job) (sig : ProcSig)
    (flag : Bool) (W : WorldState)
    (htasks : st.rds.tasks = raw :: rest)
    (hparse : parse raw = some job)
    (hproc : process_job env job = .error sig)
    (hne : sig ≠ ProcSig.unboundLocalError)
    (hfail : fx.zaddOk = false ∨ fx.setDeferredOk = false)
    (hfb : fx.setFallbackOk = true)
    (hrun : run_once env fx parse now st = .ok (flag, W)) :
    flag = true ∧
    assocGet W.rds.kv ("job:" ++ pyShowId job.id) =
      some { id := job.id, errMsg := some (sigMessage sig) } := by
  obtain ⟨rds1, hpop⟩ := run_once_pop env fx parse now st raw rest htasks
  obtain ⟨d2, hd⟩ := handle_deferral_fallback fx now raw job sig
    { rds := rds1, files := st.files } hfail hfb
  rw [hpop, execute_popped_deferral env fx parse now raw _ job sig hparse hproc hne,
      hd] at hrun
  have h1 := Except.ok.inj hrun
  rw [Prod.mk.injEq] at h1
  obtain ⟨hflag, hW⟩ := h1
  subst hW
  exact ⟨hflag.symm, assocGet_assocSet _ _ _⟩

/-- C9 witness: the theorem on the concrete scenario where zadd raises. -/
theorem claim_C9_deferral_fallback_witness :
    true = true ∧
    assocGet W9.rds.kv ("job:" ++ pyShowId jobT.id) =
      some { id := jobT.id,
             errMsg := some (sigMessage (.rateLimitExceeded 30)) } :=
  claim_C9_deferral_fallback envT30 fxNoZadd parseJobT 100 stT rawT [] jobT
    (.rateLimitExceeded 30) true W9 rfl rfl rfl (by simp) (Or.inl rfl) rfl
    run_once_T30_fallback_eval

/-- C10: call_model_runner is total — on any raised exception it returns the
fallback-mock echo of the prompt — and a job that selects neither researcher
branch always yields a success-shaped JobResult whose response is the
model-runner text and which carries no error field. -/
theorem claim_C10_model_runner_fallback (env : Env) (job : Job)
    (htw : twitter_selected
      (pyShowId (pyOrOpt job.payload.prompt_id job.payload.pid))
      (job.payload.agent.getD "") job.payload.tags = false)
    (hyt : youtube_selected
      (pyShowId (pyOrOpt job.payload.prompt_id job.payload.pid))
      (job.payload.agent.getD "") job.payload.tags = false) :
    (∀ prompt msg, call_model_runner (.fail msg) prompt =
      "(fallback-mock) Echo: " ++ prompt) ∧
    process_job env job =
      .ok { id := job.id,
            response := some (.text (call_model_runner env.runner
              (pyOrStr job.payload.prompt ""))),
            finished_at := some env.now_iso } := by
  refine ⟨fun prompt msg => rfl, ?_⟩
  simp [process_job, htw, hyt]

/-- C10 witness: the theorem on the concrete unreachable-runner scenario. -/
theorem claim_C10_model_runner_fallback_witness :
    call_model_runner (.fail "ConnectionError") "x" = "(fallback-mock) Echo: x" ∧
    process_job envG jobG =
      .ok { id := jobG.id,
            response := some (.text (call_model_runner envG.runner
              (pyOrStr jobG.payload.prompt ""))),
            finished_at := some envG.now_iso } := by
  have h := claim_C10_model_runner_fallback envG jobG rfl rfl
  exact ⟨h.1 "x" "ConnectionError", h.2⟩

/-- C8: the claim asserts that for every number of processes and every
interleaving of concurrent write(backend, t) calls with distinct values, a
reader never observes a partially written or truncated store. The code
violates it: the temp path path + ".tmp" is shared by all writers and the
cooperative lock is held only around the replace step, so with writers A
(blocked_until 1) and B (blocked_until 2), the interleaving A-truncate,
A-write, B-truncate, A-replace installs the truncated (zero-byte, not valid
JSON) tmp as the canonical state file: a concurrent reader at that point
(while B is still mid-call) observes a truncated store holding neither
written value. -/
theorem claim_C8_torn_write :
    (run_sched [0, 0, 1, 0]
      ({ tmp := none, canonical := none },
       [(1, save_state_prog), (2, save_state_prog)])).1.canonical =
      some .empty ∧
    observes_one_of
      (run_sched [0, 0, 1, 0]
        ({ tmp := none, canonical := none },
         [(1, save_state_prog), (2, save_state_prog)])).1 [1, 2] = false :=
  ⟨rfl, rfl⟩
